import Mathlib

/-!
Verification of the SEO scraping service (`app.py`) against its
natural-language specification.

The development shallowly embeds the program: the HTML documents consumed by
the extractor are modelled as a tree of element/text nodes (the output of
BeautifulSoup's `html.parser`), the BeautifulSoup traversal primitives used by
the source (`find`, `find_all`, `find_next`, `find_next_sibling`, `.string`,
`.text`, attribute access) are modelled as pure functions over that tree, the
outbound HTTP fetch is an oracle argument, and Python exceptions are modelled
with `Except`.  JSON payloads are association lists of string keys to a small
JSON value type, mirroring the dictionaries the source builds.
-/

/-- JSON values as produced by the service: strings, objects and arrays. -/
inductive Json where
  | str (s : String)
  | obj (fields : List (String × Json))
  | arr (items : List Json)

/- A parsed HTML node: either a text node (BeautifulSoup `NavigableString`)
or an element with a tag name, an attribute list and children.  `NodeList` is
the (mutually inductive) list of children, so that all traversal functions are
structurally recursive and evaluate definitionally. -/
mutual
inductive Node where
  | text (s : String)
  | elem (tag : String) (attrs : List (String × String)) (children : NodeList)
inductive NodeList where
  | nil
  | cons (head : Node) (tail : NodeList)
end

/-- Build a `NodeList` from an ordinary list (used to write document literals). -/
def nl : List Node → NodeList
  | [] => .nil
  | n :: ns => .cons n (nl ns)

/-- Convert a `NodeList` back to an ordinary list of nodes. -/
def nlToList : NodeList → List Node
  | .nil => []
  | .cons n ns => n :: nlToList ns

/-- Python `str.strip()` whitespace test (ASCII whitespace characters). -/
def pyIsSpace (c : Char) : Bool :=
  c == ' ' || c == '\t' || c == '\n' || c == '\x0d' || c == '\x0b' || c == '\x0c'

/-- Python `str.strip()`: drop leading and trailing whitespace. -/
def pyStrip (s : String) : String :=
  ⟨((s.data.dropWhile pyIsSpace).reverse.dropWhile pyIsSpace).reverse⟩

/-- Split a string on runs of whitespace, dropping empty pieces (Python
`str.split()` with no argument, as used for the multi-valued `class`
attribute). -/
def splitWs : List Char → List Char → List String
  | [], acc => if acc.isEmpty then [] else [⟨acc.reverse⟩]
  | c :: cs, acc =>
    if pyIsSpace c then
      if acc.isEmpty then splitWs cs [] else ⟨acc.reverse⟩ :: splitWs cs []
    else splitWs cs (c :: acc)

/-- The CSS classes of a `class` attribute value (whitespace separated). -/
def pyClasses (s : String) : List String := splitWs s.data []

/-- Tag-name test for an element node. -/
def isElem (t : String) : Node → Bool
  | .elem tag _ _ => tag == t
  | .text _ => false

/-- Attribute lookup on an element (`tag[name]` / `tag.get(name)`). -/
def attrOf (name : String) : Node → Option String
  | .elem _ attrs _ => (attrs.find? (fun p => p.1 == name)).map (fun p => p.2)
  | .text _ => none

/-- Children of a node (a text node has none). -/
def childrenOf : Node → NodeList
  | .elem _ _ cs => cs
  | .text _ => .nil

/- Preorder (document-order) flattening of a forest: every node appears
before its descendants, which appear before its following siblings.  This is
exactly BeautifulSoup's `next_elements` order. -/
mutual
def flattenForest : NodeList → List Node
  | .nil => []
  | .cons n rest => flattenNode n ++ flattenForest rest
def flattenNode : Node → List Node
  | .text s => [.text s]
  | .elem t a cs => .elem t a cs :: flattenForest cs
end

/- Concatenated text of all text nodes of a forest, in document order. -/
mutual
def forestText : NodeList → String
  | .nil => ""
  | .cons n rest => nodeTextA n ++ forestText rest
def nodeTextA : Node → String
  | .text s => s
  | .elem _ _ cs => forestText cs
end

/-- BeautifulSoup `.text`: the concatenation of all descendant strings. -/
def nodeText (n : Node) : String := nodeTextA n

/- BeautifulSoup `.string`: defined when the node is a string, or an element
with a single child whose `.string` is defined. -/
mutual
def nodeString : Node → Option String
  | .text s => some s
  | .elem _ _ cs => soleString cs
def soleString : NodeList → Option String
  | .cons c .nil => nodeString c
  | _ => none
end

/- Find the first node (document order) satisfying `p` and return the list of
its following siblings; models `soup.find(...)` followed by sibling
navigation. -/
mutual
def findSibsF (p : Node → Bool) : NodeList → Option NodeList
  | .nil => none
  | .cons n rest =>
    if p n then some rest
    else
      match findSibsN p n with
      | some r => some r
      | none => findSibsF p rest
def findSibsN (p : Node → Bool) : Node → Option NodeList
  | .text _ => none
  | .elem _ _ cs => findSibsF p cs
end

/-- `soup.find(...)`: first node of the document satisfying `p`, in document
order. -/
def soupFind (p : Node → Bool) (doc : NodeList) : Option Node :=
  (flattenForest doc).find? p

/-- All descendants of a node in document order (the search space of
`tag.find` / `tag.find_all`). -/
def descendants (n : Node) : List Node := flattenForest (childrenOf n)

/-- `tag.find(...)`: first descendant satisfying `p`. -/
def tagFind (p : Node → Bool) (n : Node) : Option Node := (descendants n).find? p

/-- `tag.find_all(...)`: all descendants satisfying `p`, in document order. -/
def tagFindAll (p : Node → Bool) (n : Node) : List Node := (descendants n).filter p

/-- The document-order stream strictly after the first node satisfying `p`
(the matched node's descendants come first); models `tag.find_next(...)`'s
search space.  `none` when no node matches `p`. -/
def afterFirst (p : Node → Bool) (doc : NodeList) : Option (List Node) :=
  match (flattenForest doc).dropWhile (fun n => !p n) with
  | [] => none
  | _ :: rest => some rest

/-- `soup.find(pred).find_next("table")`: the first `table` element after the
first node satisfying `p`. -/
def findNextTable (p : Node → Bool) (doc : NodeList) : Option Node :=
  (afterFirst p doc).bind (fun rest => rest.find? (isElem "table"))

/-- Matches `soup.find("p", string=v)`: a `p` element whose `.string` is `v`. -/
def pString (v : String) (n : Node) : Bool :=
  isElem "p" n && (nodeString n == some v)

/-- Matches `soup.find("h3", string=v)`. -/
def h3String (v : String) (n : Node) : Bool :=
  isElem "h3" n && (nodeString n == some v)

/-- Membership of a class in a multi-valued `class` attribute. -/
def hasClass (c : String) (n : Node) : Bool :=
  match attrOf "class" n with
  | some v => (pyClasses v).contains c
  | none => false

/-- Matches `soup.find("div", class_="table")`. -/
def divTable (n : Node) : Bool := isElem "div" n && hasClass "table" n

/-- The nine metric labels probed by `get_seo_data` (`app.py` lines 55-63). -/
def metricNames : List String :=
  ["Organic Search Traffic", "Traffic Value", "Authority Score", "Visits",
   "Pages / Visit", "Avg. Visit Duration", "Bounce Rate",
   "Total Referring Domains", "Ranking Keywords"]

/-- Helper `extract_metric` of `get_seo_data`: find the first `p` element
whose string is `name`, take its next sibling `p` element, and return the
stripped text of the first anchor inside it; any miss yields "Not Found". -/
def extract_metric (doc : NodeList) (name : String) : String :=
  match findSibsF (pString name) doc with
  | none => "Not Found"
  | some sibs =>
    match (nlToList sibs).find? (isElem "p") with
    | none => "Not Found"
    | some valueTag =>
      match tagFind (isElem "a") valueTag with
      | none => "Not Found"
      | some a => pyStrip (nodeText a)

/-- Attribute access `a["href"].strip()`: raises `KeyError("href")` (whose
`str` is `'href'`) when the anchor has no `href` attribute. -/
def getHref (a : Node) : Except String String :=
  match attrOf "href" a with
  | some v => Except.ok (pyStrip v)
  | none => Except.error "\x27href\x27"

/-- The `tr` rows of a table after the header row (`find_all("tr")[1:]`). -/
def tableRows (t : Node) : List Node := (tagFindAll (isElem "tr") t).drop 1

/-- The `td` cells of a row (`row.find_all("td")`). -/
def tds (row : Node) : List Node := tagFindAll (isElem "td") row

/-- Rows of the table following a given `h3` heading; empty when the heading
or the table is missing. -/
def sectionRows (doc : NodeList) (heading : String) : List Node :=
  match findNextTable (h3String heading) doc with
  | some t => tableRows t
  | none => []

/-- Body of the backlinks loop (`app.py` lines 73-84): a row with fewer than
4 cells yields no record; otherwise the source URL is the `href` of the first
anchor of cell 0 ("N/A" if the cell has no anchor), the target URL the `href`
of the last anchor of cell 0 ("N/A" if none), the anchor text cell 1's text
and the follow type cell 2's text.  An anchor without `href` raises. -/
def backlinkRowOf (row : Node) : Except String (Option Json) :=
  match tds row with
  | c0 :: c1 :: c2 :: _ :: _ =>
    match (match tagFind (isElem "a") c0 with
           | some a => getHref a
           | none => Except.ok "N/A") with
    | Except.error e => Except.error e
    | Except.ok source_url =>
      match (match (tagFindAll (isElem "a") c0).getLast? with
             | some a => getHref a
             | none => Except.ok "N/A") with
      | Except.error e => Except.error e
      | Except.ok target_url =>
        Except.ok (some (Json.obj
          [("source_url", Json.str source_url),
           ("target_url", Json.str target_url),
           ("anchor_text", Json.str (pyStrip (nodeText c1))),
           ("follow_type", Json.str (pyStrip (nodeText c2)))]))
  | _ => Except.ok none

/-- Run a fallible per-row extractor over the rows, collecting the produced
records; the first raised exception aborts the whole extraction. -/
def collectRows (f : Node → Except String (Option Json)) :
    List Node → Except String (List Json)
  | [] => Except.ok []
  | r :: rs =>
    match f r with
    | Except.error e => Except.error e
    | Except.ok o =>
      match collectRows f rs with
      | Except.error e => Except.error e
      | Except.ok rest =>
        Except.ok (match o with | some j => j :: rest | none => rest)

/-- The backlinks collection (`app.py` lines 66-84). -/
def backlinksOf (doc : NodeList) : Except String (List Json) :=
  collectRows backlinkRowOf (sectionRows doc "Backlinks")

/-- Body of the top-pages loop (`app.py` lines 93-103). -/
def topPageRowOf (row : Node) : Option Json :=
  match tds row with
  | c0 :: c1 :: c2 :: _ =>
    some (Json.obj
      [("page_url", Json.str
         (match tagFind (isElem "a") c0 with
          | some a => pyStrip (nodeText a)
          | none => pyStrip (nodeText c0))),
       ("traffic_percentage", Json.str (pyStrip (nodeText c1))),
       ("keywords", Json.str (pyStrip (nodeText c2)))])
  | _ => none

/-- The top-pages collection (`app.py` lines 87-103). -/
def topPagesOf (doc : NodeList) : List Json :=
  (sectionRows doc "Top Pages").filterMap topPageRowOf

/-- Body of the competitors loop (`app.py` lines 112-122).  The accumulator
carries the local variable `domain`, which the loop REBINDS to the stripped
text of the row's first cell — shadowing the function argument of
`get_seo_data`. -/
def competitorsStep (acc : List Json × String) (row : Node) : List Json × String :=
  match tds row with
  | c0 :: c1 :: c2 :: _ =>
    (acc.1 ++ [Json.obj
      [("domain", Json.str (pyStrip (nodeText c0))),
       ("common_keywords", Json.str (pyStrip (nodeText c1))),
       ("competition_level", Json.str (pyStrip (nodeText c2)))]],
     pyStrip (nodeText c0))
  | _ => acc

/-- The competitors collection together with the final value of the local
variable `domain` (`app.py` lines 106-122). -/
def competitorsOf (doc : NodeList) (domain : String) : List Json × String :=
  (sectionRows doc "Main Organic Competitors").foldl competitorsStep ([], domain)

/-- Body of the top-ranking-keywords loop (`app.py` lines 130-149). -/
def keywordRowOf (row : Node) : Option Json :=
  match tds row with
  | c0 :: c1 :: c2 :: c3 :: c4 :: c5 :: c6 :: c7 :: _ =>
    some (Json.obj
      [("keyword", Json.str (pyStrip (nodeText c0))),
       ("rank", Json.str (pyStrip (nodeText c1))),
       ("traffic_percentage", Json.str (pyStrip (nodeText c2))),
       ("volume", Json.str (pyStrip (nodeText c3))),
       ("kd_percentage", Json.str (pyStrip (nodeText c4))),
       ("cpc", Json.str (pyStrip (nodeText c5))),
       ("num_results", Json.str (pyStrip (nodeText c6))),
       ("search_trend", Json.str (pyStrip (nodeText c7)))])
  | _ => none

/-- The top-ranking-keywords collection (`app.py` lines 125-149): anchored on
the first `div` with class `table`, not on a heading. -/
def topKeywordsOf (doc : NodeList) : List Json :=
  match soupFind divTable doc with
  | some t => (tableRows t).filterMap keywordRowOf
  | none => []

/-- The nine-metric object of the report (`app.py` lines 154-164). -/
def metricsJson (doc : NodeList) : Json :=
  Json.obj
    [("organic_traffic", Json.str (extract_metric doc "Organic Search Traffic")),
     ("traffic_value", Json.str (extract_metric doc "Traffic Value")),
     ("authority_score", Json.str (extract_metric doc "Authority Score")),
     ("visits", Json.str (extract_metric doc "Visits")),
     ("pages_per_visit", Json.str (extract_metric doc "Pages / Visit")),
     ("avg_visit_duration", Json.str (extract_metric doc "Avg. Visit Duration")),
     ("bounce_rate", Json.str (extract_metric doc "Bounce Rate")),
     ("total_referring_domains", Json.str (extract_metric doc "Total Referring Domains")),
     ("ranking_keywords", Json.str (extract_metric doc "Ranking Keywords"))]

/-- The fetch URL template of the extractor (`app.py` line 25). -/
def target_url (domain : String) : String :=
  "https://tools.trafficthinktank.com/website-traffic-checker?q=" ++ domain

/-- Outcome of the outbound `requests.get`: a response with a status code and
a parsed HTML body, or a network-level `RequestException` with its string
representation. -/
inductive FetchResult where
  | resp (status : Nat) (body : NodeList)
  | netErr (msg : String)

/-- A JSON-object payload, as the dictionaries `get_seo_data` returns. -/
abbrev Payload := List (String × Json)

/-- The extractor `get_seo_data` (`app.py` lines 22-176), with the HTTP layer
as an oracle from URLs to fetch outcomes.  The Python function returns a pair
whose second component is always `None`; only the payload is modelled.  The
`domain` key of the success payload is the final value of the local variable
`domain`, which the competitors loop may have rebound. -/
def get_seo_data (domain : String) (fetch : String → FetchResult) : Payload :=
  match fetch (target_url domain) with
  | .netErr e => [("error", Json.str ("Request failed: " ++ e))]
  | .resp status doc =>
    if status ≠ 200 then
      [("error", Json.str ("Failed to retrieve the page. Status Code: " ++ toString status))]
    else
      match backlinksOf doc with
      | Except.error e => [("error", Json.str ("An error occurred: " ++ e))]
      | Except.ok backlinks =>
        let comp := competitorsOf doc domain
        [("domain", Json.str comp.2),
         ("metrics", metricsJson doc),
         ("top_keywords", Json.arr (topKeywordsOf doc)),
         ("backlinks", Json.arr backlinks),
         ("competitors", Json.arr comp.1),
         ("top_pages", Json.arr (topPagesOf doc))]

/-- Characters CPython `urllib.parse.urlsplit` removes from the URL before
parsing (tab, carriage return, newline). -/
def isUrlCtl (c : Char) : Bool := c == '\t' || c == '\x0d' || c == '\n'

/-- Characters allowed in a URL scheme. -/
def isSchemeChar (c : Char) : Bool :=
  c.isAlphanum || c == '+' || c == '-' || c == '.'

/-- Drop a leading `scheme:` from the character stream, as `urlsplit` does:
the part before the first `:` must be non-empty, start with a letter and
consist of scheme characters; otherwise the stream is left unchanged. -/
def splitScheme (cs : List Char) : List Char :=
  match cs.findIdx? (fun c => c == ':') with
  | some i =>
    if (i != 0) && (cs.take i).all isSchemeChar && (cs.headD ' ').isAlpha then
      cs.drop (i + 1)
    else cs
  | none => cs

/-- CPython `_checknetloc` (the CVE-2019-9636 fix in `urlsplit`): an empty or
all-ASCII netloc is accepted outright; a non-ASCII netloc is compared against
its NFKC normalization and `ValueError` is raised when normalization would
introduce one of `/?#@:`.  NFKC normalization needs the Unicode tables and is
not computable in this development, so the non-ASCII branch is modelled
conservatively as raising CPython's error; every theorem below relies only on
the all-ASCII fast path, where this model is exact (the real check returns
without examining the netloc further). -/
def checkNetlocNFKC (netloc : List Char) : Except String String :=
  if netloc.all (fun c => c.toNat < 128) then Except.ok ⟨netloc⟩
  else Except.error
    ("netloc \x27" ++ String.mk netloc ++ "\x27 contains invalid characters under NFKC normalization")

/-- The validation `urlsplit` applies to the netloc: a `[` without a `]` (or
vice versa) raises `ValueError("Invalid IPv6 URL")`, then the NFKC check runs.
(Newer CPython additionally validates the contents of a matched bracket pair;
no claim depends on that path and it is not modelled.) -/
def netlocCheck (netloc : List Char) : Except String String :=
  if (netloc.contains '[') != (netloc.contains ']') then
    Except.error "Invalid IPv6 URL"
  else checkNetlocNFKC netloc

/-- `urllib.parse.urlparse(url).netloc`: strip tab/CR/LF, drop the scheme,
and when the remainder starts with `//` take everything up to the next `/`,
`?` or `#`, subject to the bracket and NFKC validations; otherwise the netloc
is empty (and the NFKC check passes trivially on it). -/
def urlsplitNetloc (cs0 : List Char) : Except String String :=
  if (splitScheme (cs0.filter (fun c => !isUrlCtl c))).take 2 = ['/', '/'] then
    netlocCheck (((splitScheme (cs0.filter (fun c => !isUrlCtl c))).drop 2).takeWhile
      (fun c => !(c == '/' || c == '?' || c == '#')))
  else Except.ok ""

/-- `urlparse(url).netloc` on a string. -/
def urlparse_netloc (url : String) : Except String String := urlsplitNetloc url.data

/-- Whether a string starts with the given literal prefix. -/
def strStartsWith (s p : String) : Bool := p.data.isPrefixOf s.data

/-- Drop the first `n` characters of a string. -/
def strDrop (s : String) (n : Nat) : String := ⟨s.data.drop n⟩

/-- The URL actually parsed by `normalize_domain`: the input, with
`https://` prepended when no `http://`/`https://` prefix is present. -/
def prefixedUrl (url : String) : String :=
  if strStartsWith url "http://" || strStartsWith url "https://" then url
  else "https://" ++ url

/-- `normalize_domain` (`app.py` lines 12-20): prepend `https://` when no
`http://`/`https://` prefix is present, take the URL's netloc, and strip one
leading `www.`.  The result is in `Except` because `urlparse` can raise
`ValueError`. -/
def normalize_domain (url : String) : Except String String :=
  match urlparse_netloc (prefixedUrl url) with
  | Except.error e => Except.error e
  | Except.ok domain =>
    Except.ok (if strStartsWith domain "www." then strDrop domain 4 else domain)

/-- The HTTP 400 payload for a missing `url` parameter (`app.py` line 195). -/
def missing_url_error : Payload :=
  [("error", Json.str "No URL provided. Please include a \x27url\x27 parameter.")]

/-- The `/api/seo-data` route handler (`app.py` lines 191-206), parametrised
over the normalizer and the extractor so that non-invocation on the 400 path
is expressible.  The result is `(status, payload)`; `Except.error` models an
exception escaping the handler to the framework. -/
def fetch_seo_data_gen (urlParam : Option String)
    (normalizeF : String → Except String String)
    (getData : String → Payload) : Except String (Nat × Payload) :=
  let url := urlParam.getD ""
  if url = "" then Except.ok (400, missing_url_error)
  else
    match normalizeF url with
    | Except.error e => Except.error e
    | Except.ok domain =>
      let data := getData domain
      if (data.lookup "error").isSome then Except.ok (500, data)
      else Except.ok (200, data)

/-- The `/api/seo-data` route handler with the real normalizer and extractor,
the fetch layer as an oracle. -/
def fetch_seo_data (urlParam : Option String) (fetch : String → FetchResult) :
    Except String (Nat × Payload) :=
  fetch_seo_data_gen urlParam normalize_domain (fun d => get_seo_data d fetch)

/-- Statement-side description (from the spec's wording) of a backlink URL
field: "N/A" when the cell has no anchor, otherwise the stripped `href` of
the given anchor.  Used only to state theorems, for comparison with the code
path. -/
def urlFromAnchor : Option Node → String
  | none => "N/A"
  | some a => pyStrip ((attrOf "href" a).getD "")

/-- A document whose competitors table has one data row; its first cell reads
`rival.com`. -/
def competDoc : NodeList := nl
  [Node.elem "h3" [] (nl [Node.text "Main Organic Competitors"]),
   Node.elem "table" [] (nl
     [Node.elem "tr" [] (nl [Node.elem "th" [] (nl [Node.text "Domain"])]),
      Node.elem "tr" [] (nl
        [Node.elem "td" [] (nl [Node.text "rival.com"]),
         Node.elem "td" [] (nl [Node.text "10"]),
         Node.elem "td" [] (nl [Node.text "High"])])])]

/-- A backlinks row with four cells whose first cell holds an anchor WITHOUT
an `href` attribute. -/
def badHrefRow : Node := Node.elem "tr" [] (nl
  [Node.elem "td" [] (nl [Node.elem "a" [] (nl [Node.text "link"])]),
   Node.elem "td" [] (nl [Node.text "anchor"]),
   Node.elem "td" [] (nl [Node.text "dofollow"]),
   Node.elem "td" [] (nl [Node.text "x"])])

/-- A document whose backlinks table contains `badHrefRow`. -/
def badHrefDoc : NodeList := nl
  [Node.elem "h3" [] (nl [Node.text "Backlinks"]),
   Node.elem "table" [] (nl
     [Node.elem "tr" [] (nl [Node.elem "th" [] (nl [Node.text "Source"])]),
      badHrefRow])]

/-- An anchor with an `href` attribute (with surrounding whitespace). -/
def goodAnchor : Node := Node.elem "a" [("href", " https://a.com ")] (nl [Node.text "A"])

/-- First cell of `goodRow`: exactly one anchor. -/
def goodTd0 : Node := Node.elem "td" [] (nl [goodAnchor])

/-- Second cell of `goodRow`. -/
def goodTd1 : Node := Node.elem "td" [] (nl [Node.text " anchor "])

/-- Third cell of `goodRow`. -/
def goodTd2 : Node := Node.elem "td" [] (nl [Node.text "dofollow"])

/-- Fourth cell of `goodRow`. -/
def goodTd3 : Node := Node.elem "td" [] (nl [Node.text "x"])

/-- A well-formed backlinks row: four cells, one `href`-carrying anchor in
the first. -/
def goodRow : Node := Node.elem "tr" [] (nl [goodTd0, goodTd1, goodTd2, goodTd3])

/-- A document with no metric labels but a populated backlinks section. -/
def onlyBacklinksDoc : NodeList := nl
  [Node.elem "h3" [] (nl [Node.text "Backlinks"]),
   Node.elem "table" [] (nl
     [Node.elem "tr" [] (nl [Node.elem "th" [] (nl [Node.text "h"])]),
      goodRow])]

/-- A document with none of the recognized labels, headings or tables. -/
def plainDoc : NodeList := nl [Node.elem "p" [] (nl [Node.text "hello"])]

/-- A document containing a metric label with no following sibling. -/
def labelOnlyDoc : NodeList := nl [Node.elem "p" [] (nl [Node.text "Visits"])]

/-- A document containing a metric label whose sibling `p` has no anchor. -/
def labelNoAnchorDoc : NodeList := nl
  [Node.elem "p" [] (nl [Node.text "Visits"]),
   Node.elem "p" [] (nl [Node.text "100"])]

/-- A table row with only two cells. -/
def shortRow : Node := Node.elem "tr" [] (nl
  [Node.elem "td" [] (nl [Node.text "a"]),
   Node.elem "td" [] (nl [Node.text "b"])])

/-- A table row with four cells and no anchor in the first. -/
def noAnchorRow : Node := Node.elem "tr" [] (nl
  [Node.elem "td" [] (nl [Node.text "s"]),
   Node.elem "td" [] (nl [Node.text "t"]),
   Node.elem "td" [] (nl [Node.text "u"]),
   Node.elem "td" [] (nl [Node.text "v"])])

/-- First cell of `noAnchorRow`. -/
def noAnchorTd0 : Node := Node.elem "td" [] (nl [Node.text "s"])

/-- Second cell of `noAnchorRow`. -/
def noAnchorTd1 : Node := Node.elem "td" [] (nl [Node.text "t"])

/-- Third cell of `noAnchorRow`. -/
def noAnchorTd2 : Node := Node.elem "td" [] (nl [Node.text "u"])

/-- Fourth cell of `noAnchorRow`. -/
def noAnchorTd3 : Node := Node.elem "td" [] (nl [Node.text "v"])

/-- A first match is the head of the filtered list. -/
lemma find?_eq_filter_head? (p : α → Bool) (l : List α) :
    l.find? p = (l.filter p).head? := by
  induction l with
  | nil => rfl
  | cons a t ih =>
    by_cases h : p a
    · rw [List.find?_cons_of_pos _ h, List.filter_cons_of_pos h]; rfl
    · rw [List.find?_cons_of_neg _ h, List.filter_cons_of_neg h, ih]

/-- `tag.find` is the head of `tag.find_all`. -/
lemma tagFind_eq_head? (p : Node → Bool) (n : Node) :
    tagFind p n = (tagFindAll p n).head? :=
  find?_eq_filter_head? p (descendants n)

/-- The last element of a list is a member. -/
lemma mem_of_getLast_some {l : List α} {a : α} (h : l.getLast? = some a) : a ∈ l := by
  induction l with
  | nil => simp at h
  | cons x t ih =>
    cases t with
    | nil => simp_all
    | cons y u =>
      rw [List.getLast?_cons_cons] at h
      exact List.mem_cons_of_mem x (ih h)

/-- `splitScheme` only removes characters. -/
lemma mem_splitScheme {cs : List Char} {c : Char} (h : c ∈ splitScheme cs) : c ∈ cs := by
  unfold splitScheme at h
  split at h
  · split at h
    · exact List.mem_of_mem_drop h
    · exact h
  · exact h

/-- Absent elements make `contains` false. -/
lemma contains_false_of_not_mem {l : List Char} {c : Char} (h : c ∉ l) :
    l.contains c = false := by
  simpa using h

/-- A missing metric label yields the placeholder. -/
lemma extract_metric_no_label {doc : NodeList} {name : String}
    (h : findSibsF (pString name) doc = none) :
    extract_metric doc name = "Not Found" := by
  unfold extract_metric; rw [h]

/-- A metric label with no following sibling `p` yields the placeholder. -/
lemma extract_metric_no_sibling {doc : NodeList} {name : String} {sibs : NodeList}
    (h : findSibsF (pString name) doc = some sibs)
    (h2 : (nlToList sibs).find? (isElem "p") = none) :
    extract_metric doc name = "Not Found" := by
  unfold extract_metric; simp only [h, h2]

/-- A metric value element with no anchor yields the placeholder. -/
lemma extract_metric_no_anchor {doc : NodeList} {name : String} {sibs : NodeList}
    {vt : Node} (h : findSibsF (pString name) doc = some sibs)
    (h2 : (nlToList sibs).find? (isElem "p") = some vt)
    (h3 : tagFind (isElem "a") vt = none) :
    extract_metric doc name = "Not Found" := by
  unfold extract_metric; simp only [h, h2, h3]

/-- A row with fewer than four cells yields no backlink record and no error. -/
lemma backlinkRowOf_short {row : Node} (h : (tds row).length < 4) :
    backlinkRowOf row = Except.ok none := by
  unfold backlinkRowOf
  split
  · rename_i c0 c1 c2 c3 r heq
    rw [heq] at h
    simp only [List.length_cons] at h
    omega
  · rfl

/-- A row with at least four cells, all of whose first-cell anchors carry an
`href` attribute, yields the record described by the spec: URLs from the
first and last anchor of the first cell ("N/A" when there is none), anchor
text from the second cell, follow type from the third. -/
lemma backlinkRowOf_ok {row c0 c1 c2 c3 : Node} {r : List Node}
    (htds : tds row = c0 :: c1 :: c2 :: c3 :: r)
    (hhref : ∀ a ∈ tagFindAll (isElem "a") c0, (attrOf "href" a).isSome) :
    backlinkRowOf row = Except.ok (some (Json.obj
      [("source_url", Json.str (urlFromAnchor ((tagFindAll (isElem "a") c0).head?))),
       ("target_url", Json.str (urlFromAnchor ((tagFindAll (isElem "a") c0).getLast?))),
       ("anchor_text", Json.str (pyStrip (nodeText c1))),
       ("follow_type", Json.str (pyStrip (nodeText c2)))])) := by
  unfold backlinkRowOf
  simp only [htds]
  rw [tagFind_eq_head?]
  rcases hA : tagFindAll (isElem "a") c0 with _ | ⟨a, l⟩
  · rfl
  · have ha : (attrOf "href" a).isSome := hhref a (by rw [hA]; exact List.mem_cons_self a l)
    rcases Option.isSome_iff_exists.mp ha with ⟨va, hva⟩
    rcases hL : (a :: l).getLast? with _ | a2
    · simp at hL
    · have ha2 : (attrOf "href" a2).isSome := hhref a2 (by rw [hA]; exact mem_of_getLast_some hL)
      rcases Option.isSome_iff_exists.mp ha2 with ⟨va2, hva2⟩
      simp only [List.head?_cons, urlFromAnchor, getHref, hva, hva2, Option.getD_some]

/-- A bracket-free all-ASCII netloc passes both validations. -/
lemma netlocCheck_ok {nle : List Char} (h1 : '[' ∉ nle) (h2 : ']' ∉ nle)
    (h3 : nle.all (fun c => c.toNat < 128) = true) :
    netlocCheck nle = Except.ok ⟨nle⟩ := by
  unfold netlocCheck
  rw [contains_false_of_not_mem h1, contains_false_of_not_mem h2]
  show checkNetlocNFKC nle = Except.ok ⟨nle⟩
  unfold checkNetlocNFKC
  rw [if_pos h3]

/-- On all-ASCII bracket-free input, netloc extraction succeeds. -/
lemma urlsplitNetloc_ok {cs0 : List Char}
    (h : ∀ c ∈ cs0, c.toNat < 128 ∧ c ≠ '[' ∧ c ≠ ']') :
    ∃ d, urlsplitNetloc cs0 = Except.ok d := by
  unfold urlsplitNetloc
  split
  · have hmem : ∀ c ∈ ((splitScheme (cs0.filter (fun c => !isUrlCtl c))).drop 2).takeWhile
        (fun c => !(c == '/' || c == '?' || c == '#')), c ∈ cs0 := by
      intro c hc
      exact List.mem_of_mem_filter (mem_splitScheme (List.mem_of_mem_drop
        ((List.takeWhile_sublist _).mem hc)))
    exact ⟨_, netlocCheck_ok (fun hc => (h _ (hmem _ hc)).2.1 rfl)
      (fun hc => (h _ (hmem _ hc)).2.2 rfl)
      (List.all_eq_true.mpr (fun c hc => by
        exact decide_eq_true (h c (hmem c hc)).1))⟩
  · exact ⟨"", rfl⟩

/-- A missing `h3` heading leaves a section's row list empty. -/
lemma sectionRows_nil {doc : NodeList} {h : String}
    (hall : ((flattenForest doc).all (fun n => !h3String h n)) = true) :
    sectionRows doc h = [] := by
  unfold sectionRows findNextTable afterFirst
  rw [List.dropWhile_eq_nil_iff.mpr (fun x hx => List.all_eq_true.mp hall x hx)]
  rfl

/-- When no node matches, `soup.find` fails. -/
lemma soupFind_none {doc : NodeList} {p : Node → Bool}
    (hall : ((flattenForest doc).all (fun n => !p n)) = true) :
    soupFind p doc = none := by
  unfold soupFind
  refine List.find?_eq_none.mpr (fun x hx hpx => ?_)
  have hb := List.all_eq_true.mp hall x hx
  rw [hpx] at hb
  exact absurd hb (by simp)

/-- The all-placeholder success report for a given domain: all nine metrics
`"Not Found"`, all four collections empty. -/
def notFoundReport (dm : String) : Payload :=
  [("domain", Json.str dm),
   ("metrics", Json.obj
     [("organic_traffic", Json.str "Not Found"),
      ("traffic_value", Json.str "Not Found"),
      ("authority_score", Json.str "Not Found"),
      ("visits", Json.str "Not Found"),
      ("pages_per_visit", Json.str "Not Found"),
      ("avg_visit_duration", Json.str "Not Found"),
      ("bounce_rate", Json.str "Not Found"),
      ("total_referring_domains", Json.str "Not Found"),
      ("ranking_keywords", Json.str "Not Found")]),
   ("top_keywords", Json.arr []),
   ("backlinks", Json.arr []),
   ("competitors", Json.arr []),
   ("top_pages", Json.arr [])]

/-- Claim C1: the claim states that the success payload's `domain` field
always equals the extractor's argument, regardless of the competitors table.
The code violates this: the competitors loop rebinds the local variable
`domain`, so with one competitor row (first cell `rival.com`) the success
payload's `domain` field is `rival.com`, not the argument `example.com`. -/
theorem c1_domain_overwritten_by_competitor_row :
    (get_seo_data "example.com" (fun _ => FetchResult.resp 200 competDoc)).lookup "domain"
      = some (Json.str "rival.com") ∧ ("rival.com" : String) ≠ "example.com" :=
  ⟨rfl, by decide⟩

/-- Claim C5: on a non-200 upstream status, `get_seo_data` returns exactly
the error payload with the status code interpolated and no partial report,
and the endpoint surfaces that payload with HTTP 500. -/
theorem c5_non200_error_payload (dm url : String) (status : Nat) (doc : NodeList)
    (f : String → FetchResult)
    (hs : status ≠ 200) (hf : ∀ u, f u = FetchResult.resp status doc)
    (hu : url ≠ "") (hn : normalize_domain url = Except.ok dm) :
    get_seo_data dm f
      = [("error", Json.str ("Failed to retrieve the page. Status Code: " ++ toString status))] ∧
    fetch_seo_data (some url) f
      = Except.ok (500,
          [("error", Json.str ("Failed to retrieve the page. Status Code: " ++ toString status))]) := by
  have h1 : get_seo_data dm f
      = [("error", Json.str ("Failed to retrieve the page. Status Code: " ++ toString status))] := by
    unfold get_seo_data
    simp only [hf (target_url dm)]
    rw [if_pos hs]
  refine ⟨h1, ?_⟩
  unfold fetch_seo_data fetch_seo_data_gen
  simp only [Option.getD_some, if_neg hu, hn, h1]
  rfl

/-- Witness for C5 at status 404 on an empty document. -/
theorem c5_witness :
    get_seo_data "example.com" (fun _ => FetchResult.resp 404 (nl []))
      = [("error", Json.str ("Failed to retrieve the page. Status Code: " ++ toString 404))] ∧
    fetch_seo_data (some "example.com") (fun _ => FetchResult.resp 404 (nl []))
      = Except.ok (500,
          [("error", Json.str ("Failed to retrieve the page. Status Code: " ++ toString 404))]) :=
  c5_non200_error_payload "example.com" "example.com" 404 (nl []) _
    (by decide) (fun _ => rfl) (by decide) rfl

/-- Claim C6: when the `url` query parameter is absent the endpoint answers
400 with the exact missing-parameter body, for EVERY normalizer and every
extractor — i.e. neither is invoked. -/
theorem c6_missing_url_param :
    (∀ (normalizeF : String → Except String String) (getData : String → Payload),
       fetch_seo_data_gen none normalizeF getData = Except.ok (400, missing_url_error)) ∧
    (∀ f : String → FetchResult,
       fetch_seo_data none f = Except.ok (400,
         [("error", Json.str "No URL provided. Please include a \x27url\x27 parameter.")])) :=
  ⟨fun _ _ => rfl, fun _ => rfl⟩

/-- Claim C7: the normalizer's sample values, including the absence of case
folding on the host. -/
theorem c7_normalize_examples :
    normalize_domain "www.example.com" = Except.ok "example.com" ∧
    normalize_domain "https://www.example.com/path" = Except.ok "example.com" ∧
    normalize_domain "example.com" = Except.ok "example.com" ∧
    normalize_domain "http://Sub.Example.com" = Except.ok "Sub.Example.com" :=
  ⟨rfl, rfl, rfl, rfl⟩

/-- Claim C8, counterexample: `normalize_domain` is NOT total — on input
`"["` the parsed URL is `https://[`, whose netloc `[` has an unmatched
bracket, so `urlparse` raises `ValueError("Invalid IPv6 URL")`, which
propagates out of `normalize_domain`. -/
theorem c8_counterexample : normalize_domain "[" = Except.error "Invalid IPv6 URL" := rfl

/-- Claim C8, amended: `normalize_domain` returns a host string and raises no
exception on every ASCII input string containing no square bracket (on such
inputs the netloc is ASCII, so `urlsplit`'s NFKC check takes its accepting
fast path and only the bracket validation could raise). -/
theorem c8_total_on_ascii_bracket_free (url : String)
    (h : ∀ c ∈ url.data, c.toNat < 128 ∧ c ≠ '[' ∧ c ≠ ']') :
    ∃ d, normalize_domain url = Except.ok d := by
  have hlit : ∀ c ∈ "https://".data, c.toNat < 128 ∧ c ≠ '[' ∧ c ≠ ']' := by decide
  have happ : ("https://" ++ url).data = "https://".data ++ url.data := rfl
  have hc : ∀ c ∈ (prefixedUrl url).data, c.toNat < 128 ∧ c ≠ '[' ∧ c ≠ ']' := by
    unfold prefixedUrl
    split
    · exact h
    · intro c hcm
      rw [happ] at hcm
      rcases List.mem_append.mp hcm with h1 | h2
      · exact hlit c h1
      · exact h c h2
  rcases urlsplitNetloc_ok hc with ⟨d, hd⟩
  unfold normalize_domain
  rw [show urlparse_netloc (prefixedUrl url) = Except.ok d from hd]
  exact ⟨_, rfl⟩

/-- Witness for C8 (amended) at an ASCII bracket-free input. -/
theorem c8_witness : ∃ d, normalize_domain "example.com" = Except.ok d :=
  c8_total_on_ascii_bracket_free "example.com" (by decide)

/-- Claim C2, counterexample: a "missing attribute" extraction miss (an
anchor present in the first backlink cell but carrying no `href`) DOES make
`get_seo_data` return an error payload — `KeyError("href")` is raised and
converted — contradicting the claim that such misses never produce an error
payload. -/
theorem c2_counterexample :
    get_seo_data "example.com" (fun _ => FetchResult.resp 200 badHrefDoc)
      = [("error", Json.str "An error occurred: \x27href\x27")] := rfl

/-- Claim C2, amended: misses of the forms missing label, missing sibling,
missing anchor and too-few-columns degrade silently to placeholders or row
omission; a missing `href` attribute on a present anchor instead raises an
exception, which is caught and converted into a payload with a single
`error` string carrying the exception's string representation, so no
exception propagates to the caller. -/
theorem c2_miss_handling :
    (∀ (doc : NodeList) (name : String), findSibsF (pString name) doc = none →
       extract_metric doc name = "Not Found") ∧
    (∀ (doc : NodeList) (name : String) (sibs : NodeList),
       findSibsF (pString name) doc = some sibs →
       (nlToList sibs).find? (isElem "p") = none →
       extract_metric doc name = "Not Found") ∧
    (∀ (doc : NodeList) (name : String) (sibs : NodeList) (vt : Node),
       findSibsF (pString name) doc = some sibs →
       (nlToList sibs).find? (isElem "p") = some vt →
       tagFind (isElem "a") vt = none →
       extract_metric doc name = "Not Found") ∧
    (∀ row : Node, (tds row).length < 4 → backlinkRowOf row = Except.ok none) ∧
    (∀ (row c0 c1 c2 c3 : Node) (r : List Node),
       tds row = c0 :: c1 :: c2 :: c3 :: r →
       tagFindAll (isElem "a") c0 = [] →
       backlinkRowOf row = Except.ok (some (Json.obj
         [("source_url", Json.str "N/A"), ("target_url", Json.str "N/A"),
          ("anchor_text", Json.str (pyStrip (nodeText c1))),
          ("follow_type", Json.str (pyStrip (nodeText c2)))]))) ∧
    (∀ (dm e : String) (doc : NodeList) (f : String → FetchResult),
       backlinksOf doc = Except.error e →
       f (target_url dm) = FetchResult.resp 200 doc →
       get_seo_data dm f = [("error", Json.str ("An error occurred: " ++ e))]) := by
  refine ⟨fun doc name h => extract_metric_no_label h,
    fun doc name sibs h h2 => extract_metric_no_sibling h h2,
    fun doc name sibs vt h h2 h3 => extract_metric_no_anchor h h2 h3,
    fun row h => backlinkRowOf_short h,
    fun row c0 c1 c2 c3 r htds hA => ?_,
    fun dm e doc f hb hf => ?_⟩
  · have := backlinkRowOf_ok htds (by rw [hA]; intro a ha; cases ha)
    rwa [hA] at this
  · unfold get_seo_data
    simp only [hf, hb]
    rw [if_neg (fun hh => hh rfl)]

/-- Witness for C2 (amended), instantiating every conjunct at a concrete
document or row. -/
theorem c2_witness :
    extract_metric (nl []) "Visits" = "Not Found" ∧
    extract_metric labelOnlyDoc "Visits" = "Not Found" ∧
    extract_metric labelNoAnchorDoc "Visits" = "Not Found" ∧
    backlinkRowOf shortRow = Except.ok none ∧
    backlinkRowOf noAnchorRow = Except.ok (some (Json.obj
      [("source_url", Json.str "N/A"), ("target_url", Json.str "N/A"),
       ("anchor_text", Json.str (pyStrip (nodeText noAnchorTd1))),
       ("follow_type", Json.str (pyStrip (nodeText noAnchorTd2)))])) ∧
    get_seo_data "example.com" (fun _ => FetchResult.resp 200 badHrefDoc)
      = [("error", Json.str ("An error occurred: " ++ "\x27href\x27"))] :=
  ⟨c2_miss_handling.1 (nl []) "Visits" rfl,
   c2_miss_handling.2.1 labelOnlyDoc "Visits" .nil rfl rfl,
   c2_miss_handling.2.2.1 labelNoAnchorDoc "Visits"
     (nl [Node.elem "p" [] (nl [Node.text "100"])])
     (Node.elem "p" [] (nl [Node.text "100"])) rfl rfl rfl,
   c2_miss_handling.2.2.2.1 shortRow (by decide),
   c2_miss_handling.2.2.2.2.1 noAnchorRow noAnchorTd0 noAnchorTd1 noAnchorTd2 noAnchorTd3 []
     rfl rfl,
   c2_miss_handling.2.2.2.2.2 "example.com" "\x27href\x27" badHrefDoc
     (fun _ => FetchResult.resp 200 badHrefDoc) rfl rfl⟩

/-- Claim C3, counterexample: a backlinks row with four columns whose first
cell's anchor lacks `href` does NOT yield a BacklinkRow with all four fields
populated — extraction raises `KeyError("href")` instead, so no row is
emitted, contradicting the claim's "rows with at least 4 columns always emit
a BacklinkRow". -/
theorem c3_counterexample :
    (tds badHrefRow).length = 4 ∧
    backlinkRowOf badHrefRow = Except.error "\x27href\x27" := ⟨rfl, rfl⟩

/-- Claim C3, amended: a backlinks row with fewer than 4 columns emits
nothing; a row with at least 4 columns, all of whose first-cell anchors
carry an `href`, emits a BacklinkRow whose source URL comes from the first
anchor of column 1 ("N/A" when the cell has no anchor), target URL from the
last anchor of the same cell ("N/A" when none), anchor text from column 2
and follow type from column 3. -/
theorem c3_backlink_rows (row : Node) :
    ((tds row).length < 4 → backlinkRowOf row = Except.ok none) ∧
    (∀ (c0 c1 c2 c3 : Node) (r : List Node), tds row = c0 :: c1 :: c2 :: c3 :: r →
      (∀ a ∈ tagFindAll (isElem "a") c0, (attrOf "href" a).isSome) →
      backlinkRowOf row = Except.ok (some (Json.obj
        [("source_url", Json.str (urlFromAnchor ((tagFindAll (isElem "a") c0).head?))),
         ("target_url", Json.str (urlFromAnchor ((tagFindAll (isElem "a") c0).getLast?))),
         ("anchor_text", Json.str (pyStrip (nodeText c1))),
         ("follow_type", Json.str (pyStrip (nodeText c2)))]))) :=
  ⟨fun h => backlinkRowOf_short h,
   fun _ _ _ _ _ htds hhref => backlinkRowOf_ok htds hhref⟩

/-- Witness for C3 (amended): a two-cell row is dropped; a four-cell row
with an `href`-carrying anchor is emitted as described. -/
theorem c3_witness :
    backlinkRowOf shortRow = Except.ok none ∧
    backlinkRowOf goodRow = Except.ok (some (Json.obj
      [("source_url", Json.str (urlFromAnchor ((tagFindAll (isElem "a") goodTd0).head?))),
       ("target_url", Json.str (urlFromAnchor ((tagFindAll (isElem "a") goodTd0).getLast?))),
       ("anchor_text", Json.str (pyStrip (nodeText goodTd1))),
       ("follow_type", Json.str (pyStrip (nodeText goodTd2)))])) :=
  ⟨(c3_backlink_rows shortRow).1 (by decide),
   (c3_backlink_rows goodRow).2 goodTd0 goodTd1 goodTd2 goodTd3 [] rfl (by decide)⟩

/-- Claim C4, counterexample: a document with none of the nine labeled
metric sections need not produce empty collections — with a populated
backlinks section (and no metric labels) the backlinks collection is
non-empty, contradicting "all four collections are empty sequences". -/
theorem c4_counterexample :
    (metricNames.all (fun m => (findSibsF (pString m) onlyBacklinksDoc).isNone)) = true ∧
    (get_seo_data "d" (fun _ => FetchResult.resp 200 onlyBacklinksDoc)).lookup "backlinks"
      = some (Json.arr [Json.obj
        [("source_url", Json.str "https://a.com"),
         ("target_url", Json.str "https://a.com"),
         ("anchor_text", Json.str "anchor"),
         ("follow_type", Json.str "dofollow")]]) ∧
    Json.arr [Json.obj
        [("source_url", Json.str "https://a.com"),
         ("target_url", Json.str "https://a.com"),
         ("anchor_text", Json.str "anchor"),
         ("follow_type", Json.str "dofollow")]] ≠ Json.arr [] := by
  refine ⟨rfl, rfl, ?_⟩
  intro h
  injection h with h2
  exact absurd h2 (by simp)

/-- Claim C4, amended: when the document has none of the nine labeled metric
sections AND none of the three section headings and no keyword table, all
nine metric fields are `"Not Found"`, all four collections are empty, and
the endpoint still responds HTTP 200; each metric is read by exact label
match and next-sibling anchor lookup, with misses yielding `"Not Found"`. -/
theorem c4_empty_document_report (dm url : String) (doc : NodeList)
    (f : String → FetchResult)
    (hm : (metricNames.all (fun m => (findSibsF (pString m) doc).isNone)) = true)
    (hb : ((flattenForest doc).all (fun n => !h3String "Backlinks" n)) = true)
    (hp : ((flattenForest doc).all (fun n => !h3String "Top Pages" n)) = true)
    (hc : ((flattenForest doc).all (fun n => !h3String "Main Organic Competitors" n)) = true)
    (hk : ((flattenForest doc).all (fun n => !divTable n)) = true)
    (hf : f (target_url dm) = FetchResult.resp 200 doc)
    (hu : url ≠ "") (hn : normalize_domain url = Except.ok dm) :
    get_seo_data dm f = notFoundReport dm ∧
    fetch_seo_data (some url) f = Except.ok (200, notFoundReport dm) := by
  have hmet : ∀ m ∈ metricNames, extract_metric doc m = "Not Found" := fun m hm2 =>
    extract_metric_no_label (Option.isNone_iff_eq_none.mp (List.all_eq_true.mp hm m hm2))
  have hms : metricsJson doc = Json.obj
      [("organic_traffic", Json.str "Not Found"),
       ("traffic_value", Json.str "Not Found"),
       ("authority_score", Json.str "Not Found"),
       ("visits", Json.str "Not Found"),
       ("pages_per_visit", Json.str "Not Found"),
       ("avg_visit_duration", Json.str "Not Found"),
       ("bounce_rate", Json.str "Not Found"),
       ("total_referring_domains", Json.str "Not Found"),
       ("ranking_keywords", Json.str "Not Found")] := by
    unfold metricsJson
    rw [hmet "Organic Search Traffic" (by decide), hmet "Traffic Value" (by decide),
      hmet "Authority Score" (by decide), hmet "Visits" (by decide),
      hmet "Pages / Visit" (by decide), hmet "Avg. Visit Duration" (by decide),
      hmet "Bounce Rate" (by decide), hmet "Total Referring Domains" (by decide),
      hmet "Ranking Keywords" (by decide)]
  have hbl : backlinksOf doc = Except.ok [] := by
    unfold backlinksOf; rw [sectionRows_nil hb]; rfl
  have hpg : topPagesOf doc = [] := by
    unfold topPagesOf; rw [sectionRows_nil hp]; rfl
  have hcm : competitorsOf doc dm = ([], dm) := by
    unfold competitorsOf; rw [sectionRows_nil hc]; rfl
  have hkw : topKeywordsOf doc = [] := by
    unfold topKeywordsOf; rw [soupFind_none hk]
  have h1 : get_seo_data dm f = notFoundReport dm := by
    unfold get_seo_data
    simp only [hf, hbl]
    rw [if_neg (fun hh => hh rfl)]
    simp only [hcm, hms, hkw, hpg, notFoundReport]
  refine ⟨h1, ?_⟩
  unfold fetch_seo_data fetch_seo_data_gen
  simp only [Option.getD_some, if_neg hu, hn, h1]
  rfl

/-- Witness for C4 (amended) at a document containing a single unrelated
paragraph. -/
theorem c4_witness :
    get_seo_data "example.com" (fun _ => FetchResult.resp 200 plainDoc)
      = notFoundReport "example.com" ∧
    fetch_seo_data (some "example.com") (fun _ => FetchResult.resp 200 plainDoc)
      = Except.ok (200, notFoundReport "example.com") :=
  c4_empty_document_report "example.com" "example.com" plainDoc _
    rfl rfl rfl rfl rfl rfl (by decide) rfl

/-- Claim C9: every payload of `get_seo_data` is either a single-key error
object or the six-key report (never containing `error`), and the endpoint
dispatches exactly on that: 500 with the payload when the extractor failed,
200 otherwise. -/
theorem c9_error_dispatch_exact :
    (∀ (d : String) (f : String → FetchResult),
      (∃ m, get_seo_data d f = [("error", Json.str m)]) ∨
      ((get_seo_data d f).map Prod.fst
         = ["domain", "metrics", "top_keywords", "backlinks", "competitors", "top_pages"] ∧
       (get_seo_data d f).lookup "error" = none)) ∧
    (∀ (url dm : String) (f : String → FetchResult), url ≠ "" →
      normalize_domain url = Except.ok dm →
      ((get_seo_data dm f).lookup "error" ≠ none ∧
         fetch_seo_data (some url) f = Except.ok (500, get_seo_data dm f)) ∨
      ((get_seo_data dm f).lookup "error" = none ∧
         fetch_seo_data (some url) f = Except.ok (200, get_seo_data dm f))) := by
  constructor
  · intro d f
    rcases hfr : f (target_url d) with ⟨status, doc⟩ | e
    · by_cases hs : status = 200
      · subst hs
        rcases hb : backlinksOf doc with e2 | bl
        · left
          refine ⟨"An error occurred: " ++ e2, ?_⟩
          unfold get_seo_data
          simp only [hfr, hb]
          rw [if_neg (fun hh => hh rfl)]
        · right
          have hg : get_seo_data d f =
              [("domain", Json.str (competitorsOf doc d).2),
               ("metrics", metricsJson doc),
               ("top_keywords", Json.arr (topKeywordsOf doc)),
               ("backlinks", Json.arr bl),
               ("competitors", Json.arr (competitorsOf doc d).1),
               ("top_pages", Json.arr (topPagesOf doc))] := by
            unfold get_seo_data
            simp only [hfr, hb]
            rw [if_neg (fun hh => hh rfl)]
          rw [hg]
          exact ⟨rfl, rfl⟩
      · left
        refine ⟨"Failed to retrieve the page. Status Code: " ++ toString status, ?_⟩
        unfold get_seo_data
        simp only [hfr]
        rw [if_pos hs]
    · left
      refine ⟨"Request failed: " ++ e, ?_⟩
      unfold get_seo_data
      simp only [hfr]
  · intro url dm f hu hn
    have hfe : fetch_seo_data (some url) f =
        (if ((get_seo_data dm f).lookup "error").isSome then
           Except.ok (500, get_seo_data dm f)
         else Except.ok (200, get_seo_data dm f)) := by
      unfold fetch_seo_data fetch_seo_data_gen
      simp only [Option.getD_some, if_neg hu, hn]
    rcases hlk : (get_seo_data dm f).lookup "error" with _ | v
    · right
      refine ⟨rfl, ?_⟩
      rw [hfe, hlk]
      rfl
    · left
      refine ⟨fun hx => Option.noConfusion hx, ?_⟩
      rw [hfe, hlk]
      rfl

/-- Witness for C9 (dispatch part) at a concrete URL and document. -/
theorem c9_witness :
    ((get_seo_data "example.com" (fun _ => FetchResult.resp 200 plainDoc)).lookup "error" ≠ none ∧
       fetch_seo_data (some "example.com") (fun _ => FetchResult.resp 200 plainDoc)
         = Except.ok (500, get_seo_data "example.com" (fun _ => FetchResult.resp 200 plainDoc))) ∨
    ((get_seo_data "example.com" (fun _ => FetchResult.resp 200 plainDoc)).lookup "error" = none ∧
       fetch_seo_data (some "example.com") (fun _ => FetchResult.resp 200 plainDoc)
         = Except.ok (200, get_seo_data "example.com" (fun _ => FetchResult.resp 200 plainDoc))) :=
  c9_error_dispatch_exact.2 "example.com" "example.com"
    (fun _ => FetchResult.resp 200 plainDoc) (by decide) rfl

/-- Claim C10: when the first cell of an emitted backlinks row contains
exactly one anchor, the emitted record's source and target URLs coincide,
both being read from that same cell's anchors. -/
theorem c10_single_anchor_urls_equal (row c0 c1 c2 c3 : Node) (r : List Node)
    (a : Node) (b : Json)
    (htds : tds row = c0 :: c1 :: c2 :: c3 :: r)
    (hone : tagFindAll (isElem "a") c0 = [a])
    (hemit : backlinkRowOf row = Except.ok (some b)) :
    ∃ v, b = Json.obj
      [("source_url", Json.str v), ("target_url", Json.str v),
       ("anchor_text", Json.str (pyStrip (nodeText c1))),
       ("follow_type", Json.str (pyStrip (nodeText c2)))] := by
  rcases hh : attrOf "href" a with _ | va
  · have herr : backlinkRowOf row = Except.error "\x27href\x27" := by
      unfold backlinkRowOf
      simp only [htds]
      rw [tagFind_eq_head?, hone]
      simp only [List.head?_cons, getHref, hh]
    rw [herr] at hemit
    exact absurd hemit (by simp)
  · have hok : backlinkRowOf row = Except.ok (some (Json.obj
        [("source_url", Json.str (pyStrip va)), ("target_url", Json.str (pyStrip va)),
         ("anchor_text", Json.str (pyStrip (nodeText c1))),
         ("follow_type", Json.str (pyStrip (nodeText c2)))])) := by
      unfold backlinkRowOf
      simp only [htds]
      rw [tagFind_eq_head?, hone]
      simp only [List.head?_cons, List.getLast?_singleton, getHref, hh]
    rw [hok] at hemit
    exact ⟨pyStrip va, (Option.some.inj (Except.ok.inj hemit)).symm⟩

/-- Witness for C10 at a row whose first cell has exactly one
`href`-carrying anchor. -/
theorem c10_witness :
    ∃ v, Json.obj
      [("source_url", Json.str "https://a.com"), ("target_url", Json.str "https://a.com"),
       ("anchor_text", Json.str "anchor"), ("follow_type", Json.str "dofollow")]
      = Json.obj
      [("source_url", Json.str v), ("target_url", Json.str v),
       ("anchor_text", Json.str (pyStrip (nodeText goodTd1))),
       ("follow_type", Json.str (pyStrip (nodeText goodTd2)))] :=
  c10_single_anchor_urls_equal goodRow goodTd0 goodTd1 goodTd2 goodTd3 [] goodAnchor _
    rfl rfl rfl
